import Mathlib

/-!
Verification of the browser-sessions store and launcher
(`src/browsersessions.py`).

The SQLite database is modelled as three lists of rows together with the
per-table AUTOINCREMENT counters (SQLite hands out `lastrowid` values
1, 2, 3, … per table).  Each Flask route / helper of the source becomes a
pure state-passing function over this `Store`.  Values coming from
`request.form.get(...)` are `Option String` (Python `None` or a string),
and Python truthiness of such a value is `strTruthy`.
-/

set_option autoImplicit false

namespace BrowserSessions

/-- A row of the `sessions` table: `sessions(id INTEGER PRIMARY KEY AUTOINCREMENT, name TEXT UNIQUE)`. -/
structure SessionRow where
  id : Nat
  name : String
deriving Repr, DecidableEq

/-- A row of the `pinned_tabs` table: `pinned_tabs(id, session_id, url)`. -/
structure PinnedTabRow where
  id : Nat
  sessionId : Nat
  url : String
deriving Repr, DecidableEq

/-- A row of the `credentials` table: `credentials(id, session_id, website, username, password)`.
`username` is `Option String` because the route inserts `request.form.get("username")`
unchecked, which can be Python `None` (stored as SQL NULL). -/
structure CredentialRow where
  id : Nat
  sessionId : Nat
  website : String
  username : Option String
  password : String
deriving Repr, DecidableEq

/-- The database state: the three tables in insertion order plus the
AUTOINCREMENT counter of each table. -/
structure Store where
  sessions : List SessionRow
  nextSessionId : Nat
  pinnedTabs : List PinnedTabRow
  nextTabId : Nat
  credentials : List CredentialRow
  nextCredId : Nat
deriving Repr, DecidableEq

/-- The state right after `init_db()` on a missing database file: all tables
empty, AUTOINCREMENT counters at 1. -/
def initStore : Store :=
  { sessions := [], nextSessionId := 1,
    pinnedTabs := [], nextTabId := 1,
    credentials := [], nextCredId := 1 }

/-- Python truthiness of a `request.form.get` result: `None` and `""` are
falsy, every other string is truthy. -/
def strTruthy : Option String → Bool
  | none => false
  | some u => !u.isEmpty

/-- `get_session_id(session_name)` (src/browsersessions.py:51-67):
`SELECT id FROM sessions WHERE name=?`; if no row, `INSERT INTO sessions (name)
VALUES (?)` and return `lastrowid`, else return the found id.  Returns the id
together with the store after the call. -/
def get_session_id (session_name : String) (s : Store) : Nat × Store :=
  match s.sessions.find? (fun r => r.name == session_name) with
  | some r => (r.id, s)
  | none =>
      (s.nextSessionId,
        { s with
          sessions := s.sessions ++ [⟨s.nextSessionId, session_name⟩],
          nextSessionId := s.nextSessionId + 1 })

/-- Database errors surfaced by the SQLite layer.  `conflict` is the
`IntegrityError` raised when an INSERT violates the UNIQUE constraint on
`sessions.name`. -/
inductive DbError where
  | conflict
deriving Repr, DecidableEq

/-- The raw `INSERT INTO sessions (name) VALUES (?)` statement: SQLite rejects
the insert with a conflict error when a row with that name already exists
(UNIQUE constraint), otherwise it appends the row and hands out `lastrowid`. -/
def insertSession (session_name : String) (s : Store) : Except DbError (Nat × Store) :=
  if s.sessions.any (fun r => r.name == session_name) then
    .error .conflict
  else
    .ok (s.nextSessionId,
      { s with
        sessions := s.sessions ++ [⟨s.nextSessionId, session_name⟩],
        nextSessionId := s.nextSessionId + 1 })

/-- `get_session_id` at statement granularity, exposing the race window named
by the spec: `interfere` is whatever a concurrent caller commits between this
caller's SELECT and its INSERT.  The source body is followed verbatim:
SELECT; if no row, INSERT (which may now conflict) — there is no try/except
around the INSERT in src/browsersessions.py:51-67, so a conflict error
propagates to the caller and no re-read happens. -/
def get_session_id_race (session_name : String) (s : Store)
    (interfere : Store → Store) : Except DbError (Nat × Store) :=
  match s.sessions.find? (fun r => r.name == session_name) with
  | some r => .ok (r.id, s)
  | none => insertSession session_name (interfere s)

/-- `add_pinned_tab` route (src/browsersessions.py:617-630): resolve (or
create) the session, then insert the url iff the form value is truthy. -/
def add_pinned_tab (session_name : String) (url : Option String) (s : Store) : Store :=
  let p := get_session_id session_name s
  let s₁ := p.2
  if strTruthy url then
    { s₁ with
      pinnedTabs := s₁.pinnedTabs ++ [⟨s₁.nextTabId, p.1, url.getD ""⟩],
      nextTabId := s₁.nextTabId + 1 }
  else s₁

/-- `add_credential` route (src/browsersessions.py:633-649): resolve (or
create) the session, then insert iff `website and password` is truthy; the
username is inserted as given (possibly `None`). -/
def add_credential (session_name : String)
    (website username password : Option String) (s : Store) : Store :=
  let p := get_session_id session_name s
  let s₁ := p.2
  if strTruthy website && strTruthy password then
    { s₁ with
      credentials := s₁.credentials ++
        [⟨s₁.nextCredId, p.1, website.getD "", username, password.getD ""⟩],
      nextCredId := s₁.nextCredId + 1 }
  else s₁

/-- `delete_pinned_tab` route (src/browsersessions.py:657-664):
`DELETE FROM pinned_tabs WHERE id=?` — keeps every row whose id differs. -/
def delete_pinned_tab (tab_id : Nat) (s : Store) : Store :=
  { s with pinnedTabs := s.pinnedTabs.filter (fun t => t.id != tab_id) }

/-- `delete_credential` route (src/browsersessions.py:666-673):
`DELETE FROM credentials WHERE id=?`. -/
def delete_credential (cred_id : Nat) (s : Store) : Store :=
  { s with credentials := s.credentials.filter (fun c => c.id != cred_id) }

/-- What the `session_view` route renders for one session. -/
structure SessionView where
  pinnedTabs : List (Nat × String)
  credentials : List (Nat × String × Option String × String)
deriving Repr, DecidableEq

/-- `session_view` route (src/browsersessions.py:596-614): resolve (or
create!) the session, then list its pinned tabs `(id, url)` and credentials
`(id, website, username, password)` in insertion order.  Returns the rendered
view together with the store after the call. -/
def session_view (session_name : String) (s : Store) : SessionView × Store :=
  let p := get_session_id session_name s
  let s₁ := p.2
  ({ pinnedTabs :=
       (s₁.pinnedTabs.filter (fun t => t.sessionId == p.1)).map (fun t => (t.id, t.url)),
     credentials :=
       (s₁.credentials.filter (fun c => c.sessionId == p.1)).map
         (fun c => (c.id, c.website, c.username, c.password)) }, s₁)

/-- A credential as read by `launch_chromium` and embedded in the auto-fill
extension: `SELECT website, username, password FROM credentials WHERE session_id=?`. -/
structure Cred where
  website : String
  username : Option String
  password : String
deriving Repr, DecidableEq

/-- JavaScript `hay.includes(needle)`: does `needle` occur as a contiguous
substring of `hay`? -/
def strContains (hay needle : String) : Bool :=
  hay.data.tails.any (fun t => needle.data.isPrefixOf t)

/-- The auto-pin extension bundle written by `create_autopin_extension`
(src/browsersessions.py:70-134): the directory name and the list of URL
substrings baked into `background.js` via `json.dumps(pinned_urls)` (the rest
of `background.js` and `manifest.json` is a constant template). -/
structure AutopinExt where
  dirName : String
  embeddedUrls : List String
deriving Repr, DecidableEq

/-- `create_autopin_extension(pinned_urls)`: writes the bundle into
`auto_pin_extension/`, embedding exactly the given list. -/
def create_autopin_extension (pinned_urls : List String) : AutopinExt :=
  { dirName := "auto_pin_extension", embeddedUrls := pinned_urls }

/-- The auto-fill extension bundle written by `create_autofill_extension`
(src/browsersessions.py:137-199): the directory name and the full credential
list baked into the background component via `json.dumps(credentials)`. -/
structure AutofillExt where
  dirName : String
  embeddedCredentials : List Cred
deriving Repr, DecidableEq

/-- `create_autofill_extension(credentials)`: writes the bundle into
`auto_fill_extension/`, embedding exactly the given credential list. -/
def create_autofill_extension (credentials : List Cred) : AutofillExt :=
  { dirName := "auto_fill_extension", embeddedCredentials := credentials }

/-- The auto-fill background message handler (generated `background.js`):
`credentials.find(cred => url.includes(cred.website))` — the first credential
(in embedded order) whose website is a substring of the page url. -/
def getCredentials (credentials : List Cred) (url : String) : Option Cred :=
  credentials.find? (fun cred => strContains url cred.website)

/-- `<input>` element types distinguished by the generated content script:
it queries `input[type="text"], input[type="email"]` for username fields and
`input[type="password"]` for password fields. -/
inductive FieldType where
  | text
  | email
  | password
  | other
deriving Repr, DecidableEq

/-- An `<input>` element of the page: its type attribute and current value. -/
structure InputField where
  type : FieldType
  value : String
deriving Repr, DecidableEq

/-- Is the field matched by the content script's username selector? -/
def isUsernameField (f : InputField) : Bool :=
  f.type == FieldType.text || f.type == FieldType.email

/-- `fillCredentials` of the generated `content.js` (src/browsersessions.py:168-184):
if no credential matched, do nothing; otherwise `forEach` over ALL matched
username fields (set to `credentials.username` when that is truthy) and ALL
matched password fields (set to `credentials.password`). -/
def fillCredentials (cred : Option Cred) (fields : List InputField) : List InputField :=
  match cred with
  | none => fields
  | some c =>
      fields.map (fun f =>
        if isUsernameField f then
          if strTruthy c.username then { f with value := c.username.getD "" } else f
        else if f.type == FieldType.password then
          { f with value := c.password }
        else f)

/-- The whole page-load behaviour of the generated content script: it sends
the current page url to the background handler and fills the fields with
whatever credential came back. -/
def autofillOnLoad (credentials : List Cred) (pageUrl : String)
    (fields : List InputField) : List InputField :=
  fillCredentials (getCredentials credentials pageUrl) fields

/-- Modelled from the spec (section 4.2 step 5 / the claim under test), NOT
from the source: a fill that touches only the FIRST username/email field and
the FIRST password field found, leaving every later field untouched.  Used
only to compare the source's behaviour against the spec's words. -/
def fillFirstAux (c : Cred) (doneU doneP : Bool) : List InputField → List InputField
  | [] => []
  | f :: fs =>
      if isUsernameField f && !doneU then
        (if strTruthy c.username then { f with value := c.username.getD "" } else f) ::
          fillFirstAux c true doneP fs
      else if f.type == FieldType.password && !doneP then
        { f with value := c.password } :: fillFirstAux c doneU true fs
      else
        f :: fillFirstAux c doneU doneP fs

/-- Modelled from the spec: fill only the first username/email and password
input fields found (see `fillFirstAux`). -/
def fillFirstOnlySpec (cred : Option Cred) (fields : List InputField) : List InputField :=
  match cred with
  | none => fields
  | some c => fillFirstAux c false false fields

/-- Path of the browser executable hard-coded in `launch_chromium`. -/
def chromiumPath : String :=
  "C:\\Program Files\\Google\\Chrome\\Application\\chrome.exe"

/-- Everything `launch_chromium` (src/browsersessions.py:202-251) produces.
The filesystem is modelled per launched session: `profileContents` is the
content of `profiles/<session_name>` after the rmtree/makedirs steps (the
`cwd` prefix of every path is omitted).  `spawn` failures are reported in
`errorMessage`; success prints informational lines that carry no state. -/
structure LaunchResult where
  store : Store
  sessionId : Nat
  urls : List String
  credentials : List Cred
  profileDir : String
  profileContents : List String
  autopin : Option AutopinExt
  autofill : Option AutofillExt
  command : List String
  errorMessage : Option String
deriving Repr, DecidableEq

/-- `launch_chromium(session_name, fresh, use_autopin)`:
resolve (or create) the session; read its pinned urls and credentials;
`if fresh and exists: rmtree` then `makedirs(exist_ok=True)` on the profile
directory; always generate the auto-pin bundle when `use_autopin`; generate
the auto-fill bundle iff the credential list is non-empty; assemble the
command line; `subprocess.Popen` inside try/except — a spawn failure is
printed and the function still returns.  `priorProfile` is the pre-existing
profile directory content (`none` = directory absent) and `spawn` the outcome
of the process spawn, both inputs of the outside world. -/
def launch_chromium (session_name : String) (fresh use_autopin : Bool)
    (priorProfile : Option (List String)) (spawn : Except String Unit)
    (s : Store) : LaunchResult :=
  let p := get_session_id session_name s
  let sid := p.1
  let s₁ := p.2
  let urls := (s₁.pinnedTabs.filter (fun t => t.sessionId == sid)).map (fun t => t.url)
  let creds := (s₁.credentials.filter (fun c => c.sessionId == sid)).map
    (fun c => { website := c.website, username := c.username, password := c.password : Cred })
  let profileDir := "profiles/" ++ session_name
  let profileContents := if fresh then [] else priorProfile.getD []
  let autopin := if use_autopin then some (create_autopin_extension urls) else none
  let autofill := if creds.isEmpty then none else some (create_autofill_extension creds)
  let extDirs :=
    (match autopin with | some e => [e.dirName] | none => []) ++
    (match autofill with | some e => [e.dirName] | none => [])
  let command :=
    [chromiumPath, "--user-data-dir=" ++ profileDir, "--new-window"] ++
    (if extDirs.isEmpty then [] else ["--load-extension=" ++ String.intercalate "," extDirs]) ++
    urls
  { store := s₁, sessionId := sid, urls := urls, credentials := creds,
    profileDir := profileDir, profileContents := profileContents,
    autopin := autopin, autofill := autofill, command := command,
    errorMessage :=
      match spawn with
      | .ok _ => none
      | .error e => some ("Failed to launch Chromium: " ++ e) }

/-- `find?` over an appended list when the first part has no hit. -/
theorem find?_append_of_none {α : Type} {p : α → Bool} {l₁ l₂ : List α}
    (h : l₁.find? p = none) : (l₁ ++ l₂).find? p = l₂.find? p := by
  induction l₁ with
  | nil => simp
  | cons a l ih =>
      rw [List.find?_cons] at h
      cases hp : p a with
      | true => simp [hp] at h
      | false =>
          rw [List.cons_append, List.find?_cons, hp]
          exact ih (by simpa [hp] using h)

/-- After `get_session_id name s`, the `sessions` table contains a row whose
name is `name` and whose id is the returned id, and `find?` locates it. -/
theorem find?_after_get_session_id (name : String) (s : Store) :
    (get_session_id name s).2.sessions.find? (fun r => r.name == name) =
      some ⟨(get_session_id name s).1, name⟩ := by
  cases h : s.sessions.find? (fun r => r.name == name) with
  | some r =>
      have hname : r.name = name := by
        have hr := List.find?_some h
        simpa using hr
      have hrow : r = ⟨r.id, name⟩ := by cases r; simp_all
      rw [hrow] at h
      simp only [get_session_id, h]
  | none =>
      simp only [get_session_id, h]
      rw [find?_append_of_none h]
      simp

/-- `get_session_id` only reads and (possibly) extends the `sessions` table:
the other tables and counters are untouched. -/
theorem get_session_id_frame (name : String) (s : Store) :
    (get_session_id name s).2.pinnedTabs = s.pinnedTabs ∧
    (get_session_id name s).2.nextTabId = s.nextTabId ∧
    (get_session_id name s).2.credentials = s.credentials ∧
    (get_session_id name s).2.nextCredId = s.nextCredId := by
  unfold get_session_id
  cases h : s.sessions.find? (fun r => r.name == name) <;> simp

/-- Every session row survives `get_session_id` (new rows are only appended). -/
theorem get_session_id_sessions_mono (name : String) (s : Store) {r : SessionRow}
    (h : r ∈ s.sessions) : r ∈ (get_session_id name s).2.sessions := by
  unfold get_session_id
  cases hf : s.sessions.find? (fun x => x.name == name) <;>
    simp [h, List.mem_append]

/-- A call on any store whose `sessions` table equals the table left behind by
a first call resolves the same id and changes nothing: the row is found. -/
theorem get_session_id_stable (name : String) (s t : Store)
    (hs : t.sessions = (get_session_id name s).2.sessions) :
    get_session_id name t = ((get_session_id name s).1, t) := by
  have h := find?_after_get_session_id name s
  rw [get_session_id, hs, h]

/-- `find?` misses exactly when no row has the name. -/
theorem find?_sessions_eq_none (name : String) (s : Store)
    (h : ∀ r ∈ s.sessions, r.name ≠ name) :
    s.sessions.find? (fun r => r.name == name) = none := by
  rw [List.find?_eq_none]
  intro r hr
  simpa using h r hr

/-- C1: calling `get_session_id` twice in a row with the same name returns the
same id both times, and the second call leaves the store untouched (it inserts
no new row). -/
theorem get_session_id_twice (name : String) (s : Store) :
    (get_session_id name (get_session_id name s).2).1 = (get_session_id name s).1 ∧
    (get_session_id name (get_session_id name s).2).2 = (get_session_id name s).2 := by
  have h := find?_after_get_session_id name s
  constructor <;>
    · conv_lhs => rw [get_session_id]
      rw [h]

/-- Sanity: with no concurrent interference the statement-level model agrees
with `get_session_id`. -/
theorem get_session_id_race_no_interference (name : String) (s : Store) :
    get_session_id_race name s (fun t => t) = .ok (get_session_id name s) := by
  unfold get_session_id_race get_session_id insertSession
  cases h : s.sessions.find? (fun r => r.name == name) with
  | some r => rfl
  | none =>
      have hany : s.sessions.any (fun r => r.name == name) = false := by
        rw [List.any_eq_false]
        intro r hr
        simpa using List.find?_eq_none.mp h r hr
      simp [hany]

/-- C2 (amended): when the SELECT inside `get_session_id` misses and a
concurrent writer commits the same name before the INSERT, the INSERT's
unique-constraint conflict propagates to the caller as an error — the source
has no try/except and performs no re-read. -/
theorem get_session_id_race_conflict_propagates (name : String) (s : Store)
    (g : Store → Store)
    (h₁ : s.sessions.find? (fun r => r.name == name) = none)
    (h₂ : (g s).sessions.any (fun r => r.name == name) = true) :
    get_session_id_race name s g = .error .conflict := by
  unfold get_session_id_race insertSession
  rw [h₁, if_pos h₂]

/-- Witness for `get_session_id_race_conflict_propagates` at a concrete input. -/
theorem get_session_id_race_conflict_propagates_witness :
    get_session_id_race "home" initStore (fun t => (get_session_id "home" t).2) =
      .error .conflict :=
  get_session_id_race_conflict_propagates "home" initStore
    (fun t => (get_session_id "home" t).2) (by decide) (by decide)

/-- C2 (counterexample): concretely, on an empty store with a concurrent
creation of "home" inside the race window, `get_session_id` hits the conflict
and the caller receives the error — it does NOT recover by re-reading the
existing row and returning its id, as the claim states. -/
theorem get_session_id_race_conflict_cex :
    get_session_id_race "home" initStore (fun t => (get_session_id "home" t).2) =
        .error .conflict ∧
    (get_session_id_race "home" initStore
        (fun t => (get_session_id "home" t).2)).toOption = none := by
  constructor <;> rfl

/-- C4: deleting an id that occurs in neither table is a no-op: the store is
returned exactly as it was (the SQL DELETE simply affects zero rows; the
route raises nothing). -/
theorem delete_nonexistent_noop (tab_id cred_id : Nat) (s : Store)
    (ht : ∀ t ∈ s.pinnedTabs, t.id ≠ tab_id)
    (hc : ∀ c ∈ s.credentials, c.id ≠ cred_id) :
    delete_pinned_tab tab_id s = s ∧ delete_credential cred_id s = s := by
  constructor
  · unfold delete_pinned_tab
    have hf : s.pinnedTabs.filter (fun t => t.id != tab_id) = s.pinnedTabs := by
      rw [List.filter_eq_self]
      intro t htm
      simpa using ht t htm
    rw [hf]
  · unfold delete_credential
    have hf : s.credentials.filter (fun c => c.id != cred_id) = s.credentials := by
      rw [List.filter_eq_self]
      intro c hcm
      simpa using hc c hcm
    rw [hf]

/-- Witness for `delete_nonexistent_noop` at a concrete input. -/
theorem delete_nonexistent_noop_witness :
    delete_pinned_tab 99
        { sessions := [⟨1, "home"⟩], nextSessionId := 2,
          pinnedTabs := [⟨1, 1, "https://a"⟩], nextTabId := 2,
          credentials := [⟨1, 1, "a.com", some "u", "p"⟩], nextCredId := 2 } =
      { sessions := [⟨1, "home"⟩], nextSessionId := 2,
        pinnedTabs := [⟨1, 1, "https://a"⟩], nextTabId := 2,
        credentials := [⟨1, 1, "a.com", some "u", "p"⟩], nextCredId := 2 } ∧
    delete_credential 42
        { sessions := [⟨1, "home"⟩], nextSessionId := 2,
          pinnedTabs := [⟨1, 1, "https://a"⟩], nextTabId := 2,
          credentials := [⟨1, 1, "a.com", some "u", "p"⟩], nextCredId := 2 } =
      { sessions := [⟨1, "home"⟩], nextSessionId := 2,
        pinnedTabs := [⟨1, 1, "https://a"⟩], nextTabId := 2,
        credentials := [⟨1, 1, "a.com", some "u", "p"⟩], nextCredId := 2 } :=
  delete_nonexistent_noop 99 42 _ (by decide) (by decide)

/-- C10: `add_credential` inserts exactly when `website and password` is
truthy (both present and non-empty); the inserted row stores the username as
given (possibly missing).  When the guard fails the credentials table is left
unchanged and no error is raised (the route just redirects). -/
theorem add_credential_guard (session_name : String)
    (website username password : Option String) (s : Store) :
    ((strTruthy website && strTruthy password) = true →
      (add_credential session_name website username password s).credentials =
        s.credentials ++
          [⟨s.nextCredId, (get_session_id session_name s).1,
            website.getD "", username, password.getD ""⟩]) ∧
    ((strTruthy website && strTruthy password) = false →
      (add_credential session_name website username password s).credentials =
        s.credentials) := by
  have hframe := get_session_id_frame session_name s
  constructor
  · intro hg
    unfold add_credential
    rw [hg]
    simp only [if_true]
    rw [hframe.2.2.1, hframe.2.2.2]
  · intro hg
    unfold add_credential
    rw [hg]
    simp only [if_false]
    exact hframe.2.2.1

/-- Witness for `add_credential_guard` at concrete inputs: a missing username
is stored as given; an empty password blocks the insert. -/
theorem add_credential_guard_witness :
    (add_credential "work" (some "example.com") none (some "secret") initStore).credentials =
        [⟨1, 1, "example.com", none, "secret"⟩] ∧
    (add_credential "work" (some "example.com") (some "bob") (some "") initStore).credentials =
        [] := by
  constructor
  · have h := (add_credential_guard "work" (some "example.com") none (some "secret")
      initStore).1 (by decide)
    rw [h]
    decide
  · have h := (add_credential_guard "work" (some "example.com") (some "bob") (some "")
      initStore).2 (by decide)
    rw [h]
    rfl

/-- C8: no operation deletes a session row or changes a session's name.
Every row of the `sessions` table present before adding or deleting a pinned
tab or credential, launching, or rendering a session view, is present
unchanged afterwards (the only write any operation performs on `sessions` is
the append inside `get_session_id`). -/
theorem sessions_never_deleted (name : String)
    (url website username password : Option String) (tab_id cred_id : Nat)
    (fresh use_autopin : Bool) (priorProfile : Option (List String))
    (spawn : Except String Unit) (s : Store) (r : SessionRow)
    (h : r ∈ s.sessions) :
    r ∈ (add_pinned_tab name url s).sessions ∧
    r ∈ (add_credential name website username password s).sessions ∧
    r ∈ (delete_pinned_tab tab_id s).sessions ∧
    r ∈ (delete_credential cred_id s).sessions ∧
    r ∈ (launch_chromium name fresh use_autopin priorProfile spawn s).store.sessions ∧
    r ∈ (session_view name s).2.sessions := by
  have hmono := get_session_id_sessions_mono name s h
  refine ⟨?_, ?_, ?_, ?_, ?_, ?_⟩
  · unfold add_pinned_tab
    cases hg : strTruthy url <;> simp only [hg, if_true, if_false] <;> exact hmono
  · unfold add_credential
    cases hg : strTruthy website && strTruthy password <;>
      simp only [hg, if_true, if_false] <;> exact hmono
  · exact h
  · exact h
  · exact hmono
  · exact hmono

/-- Witness for `sessions_never_deleted` at a concrete input. -/
theorem sessions_never_deleted_witness :
    (⟨1, "home"⟩ : SessionRow) ∈
      (add_pinned_tab "work" (some "https://a")
        { sessions := [⟨1, "home"⟩], nextSessionId := 2,
          pinnedTabs := [], nextTabId := 1,
          credentials := [], nextCredId := 1 }).sessions :=
  (sessions_never_deleted "work" (some "https://a") (some "a.com") (some "u")
    (some "p") 7 7 true true none (.ok ())
    { sessions := [⟨1, "home"⟩], nextSessionId := 2,
      pinnedTabs := [], nextTabId := 1,
      credentials := [], nextCredId := 1 } ⟨1, "home"⟩ (by decide)).1

/-- C9: a spawn failure inside `launch_chromium` is caught by the
try/except: the function still returns a result (it is total), the failure is
surfaced as the user-visible "Failed to launch Chromium: …" message, and the
stored state is exactly what a successful spawn would have produced — the
spawn outcome has no effect on the store. -/
theorem launch_spawn_failure_nonfatal (session_name : String)
    (fresh use_autopin : Bool) (priorProfile : Option (List String))
    (e : String) (s : Store) :
    (launch_chromium session_name fresh use_autopin priorProfile
        (.error e) s).errorMessage = some ("Failed to launch Chromium: " ++ e) ∧
    (launch_chromium session_name fresh use_autopin priorProfile
        (.error e) s).store =
      (launch_chromium session_name fresh use_autopin priorProfile
        (.ok ()) s).store := by
  exact ⟨rfl, rfl⟩

/-- A present, non-empty form value is truthy. -/
theorem strTruthy_some_of_ne (u : String) (hu : u ≠ "") :
    strTruthy (some u) = true := by
  have h : u.isEmpty = false := by
    cases h : u.isEmpty
    · rfl
    · exact absurd ((String.isEmpty_iff u).mp h) hu
  show (!u.isEmpty) = true
  rw [h]
  rfl

/-- Record form of `add_pinned_tab` on a truthy url. -/
theorem add_pinned_tab_eq (name url : String) (s : Store) (hu : url ≠ "") :
    add_pinned_tab name (some url) s =
      { (get_session_id name s).2 with
        pinnedTabs := (get_session_id name s).2.pinnedTabs ++
          [⟨(get_session_id name s).2.nextTabId, (get_session_id name s).1, url⟩],
        nextTabId := (get_session_id name s).2.nextTabId + 1 } := by
  unfold add_pinned_tab
  rw [strTruthy_some_of_ne url hu]
  simp

/-- Record form of `add_credential` on truthy website and password. -/
theorem add_credential_eq (name website password : String) (username : Option String)
    (s : Store) (hw : website ≠ "") (hp : password ≠ "") :
    add_credential name (some website) username (some password) s =
      { (get_session_id name s).2 with
        credentials := (get_session_id name s).2.credentials ++
          [⟨(get_session_id name s).2.nextCredId, (get_session_id name s).1,
            website, username, password⟩],
        nextCredId := (get_session_id name s).2.nextCredId + 1 } := by
  unfold add_credential
  rw [strTruthy_some_of_ne website hw, strTruthy_some_of_ne password hp]
  simp

/-- Adding a (truthy) pinned tab appends exactly one `(id, url)` entry to the
session's rendered tab list. -/
theorem view_pinnedTabs_after_add (name url : String) (s : Store) (hu : url ≠ "") :
    (session_view name (add_pinned_tab name (some url) s)).1.pinnedTabs =
      (session_view name s).1.pinnedTabs ++
        [((get_session_id name s).2.nextTabId, url)] := by
  rw [add_pinned_tab_eq name url s hu]
  have hstab := get_session_id_stable name s
    { (get_session_id name s).2 with
      pinnedTabs := (get_session_id name s).2.pinnedTabs ++
        [⟨(get_session_id name s).2.nextTabId, (get_session_id name s).1, url⟩],
      nextTabId := (get_session_id name s).2.nextTabId + 1 } rfl
  simp only [session_view, hstab, List.filter_append, List.map_append]
  simp

/-- Adding a (truthy) credential appends exactly one rendered entry to the
session's credential list, all three fields stored as given. -/
theorem view_credentials_after_add (name website password : String)
    (username : Option String) (s : Store) (hw : website ≠ "") (hp : password ≠ "") :
    (session_view name (add_credential name (some website) username (some password) s)).1.credentials =
      (session_view name s).1.credentials ++
        [((get_session_id name s).2.nextCredId, website, username, password)] := by
  rw [add_credential_eq name website password username s hw hp]
  have hstab := get_session_id_stable name s
    { (get_session_id name s).2 with
      credentials := (get_session_id name s).2.credentials ++
        [⟨(get_session_id name s).2.nextCredId, (get_session_id name s).1,
          website, username, password⟩],
      nextCredId := (get_session_id name s).2.nextCredId + 1 } rfl
  simp only [session_view, hstab, List.filter_append, List.map_append]
  simp

/-- C7 (counterexample): if the URL is already pinned for the session, adding
it again makes the rendered list contain it TWICE — the claim's "exactly
once" fails for stores where the url was present before the add. -/
theorem add_pinned_tab_once_cex :
    ((session_view "home"
        (add_pinned_tab "home" (some "https://u")
          { sessions := [⟨1, "home"⟩], nextSessionId := 2,
            pinnedTabs := [⟨1, 1, "https://u"⟩], nextTabId := 2,
            credentials := [], nextCredId := 1 })).1.pinnedTabs.map
      Prod.snd).count "https://u" = 2 := by
  decide

/-- C7 (amended): when the (non-empty) URL is not yet among the session's
rendered pinned tabs, adding it makes the rendered list include it exactly
once. -/
theorem add_pinned_tab_once (name url : String) (s : Store) (hu : url ≠ "")
    (h₀ : ((session_view name s).1.pinnedTabs.map Prod.snd).count url = 0) :
    ((session_view name (add_pinned_tab name (some url) s)).1.pinnedTabs.map
      Prod.snd).count url = 1 := by
  rw [view_pinnedTabs_after_add name url s hu]
  rw [List.map_append, List.count_append, h₀]
  simp

/-- Witness for `add_pinned_tab_once` at a concrete input. -/
theorem add_pinned_tab_once_witness :
    ((session_view "home"
        (add_pinned_tab "home" (some "https://mail.example.com") initStore)).1.pinnedTabs.map
      Prod.snd).count "https://mail.example.com" = 1 :=
  add_pinned_tab_once "home" "https://mail.example.com" initStore
    (by decide) (by decide)

/-- C3 (counterexample): an empty url passed to `add_pinned_tab` is rejected
by the truthiness guard, so the rendered list does not return it at all —
the claim's "every field value passed … is returned unchanged" fails at `""`
(likewise an empty website or password blocks the credential insert). -/
theorem add_roundtrip_cex :
    (session_view "home" (add_pinned_tab "home" (some "") initStore)).1.pinnedTabs = [] ∧
    "" ∉ ((session_view "home"
      (add_pinned_tab "home" (some "") initStore)).1.pinnedTabs.map Prod.snd) := by
  decide

/-- C3 (amended): every field value accepted by the truthiness guards — any
non-empty url, any non-empty website and password, and the username exactly
as given (present, empty or missing) — is returned byte-for-byte unchanged
by the corresponding list in `session_view`: no normalization, no
case-folding. -/
theorem add_roundtrip (name url website password : String) (username : Option String)
    (s : Store) (hu : url ≠ "") (hw : website ≠ "") (hp : password ≠ "") :
    url ∈ ((session_view name (add_pinned_tab name (some url) s)).1.pinnedTabs.map
        Prod.snd) ∧
    (website, username, password) ∈
      ((session_view name
        (add_credential name (some website) username (some password) s)).1.credentials.map
          (fun c => (c.2.1, c.2.2.1, c.2.2.2))) := by
  constructor
  · rw [view_pinnedTabs_after_add name url s hu]
    simp
  · rw [view_credentials_after_add name website password username s hw hp]
    simp

/-- Witness for `add_roundtrip` at concrete inputs (mixed case and spaces
kept verbatim, username missing). -/
theorem add_roundtrip_witness :
    "https://Mail.Example.com/A b" ∈
      ((session_view "work"
        (add_pinned_tab "work" (some "https://Mail.Example.com/A b")
          initStore)).1.pinnedTabs.map Prod.snd) ∧
    ("Example.COM", none, "p W") ∈
      ((session_view "work"
        (add_credential "work" (some "Example.COM") none (some "p W")
          initStore)).1.credentials.map (fun c => (c.2.1, c.2.2.1, c.2.2.2))) :=
  add_roundtrip "work" "https://Mail.Example.com/A b" "Example.COM" "p W" none
    initStore (by decide) (by decide) (by decide)

/-- `add_pinned_tab` never writes the `sessions` table beyond the lazy upsert
inside its `get_session_id` call. -/
theorem add_pinned_tab_sessions (name : String) (url : Option String) (s : Store) :
    (add_pinned_tab name url s).sessions = (get_session_id name s).2.sessions := by
  unfold add_pinned_tab
  cases hg : strTruthy url <;> simp [hg]

/-- The `pinned_tabs` table after a truthy `add_pinned_tab`. -/
theorem add_pinned_tab_pinnedTabs (name url : String) (s : Store) (hu : url ≠ "") :
    (add_pinned_tab name (some url) s).pinnedTabs =
      (get_session_id name s).2.pinnedTabs ++
        [⟨(get_session_id name s).2.nextTabId, (get_session_id name s).1, url⟩] := by
  rw [add_pinned_tab_eq name url s hu]

/-- C5: starting from a store holding no session "home" (and, per the spec's
referential-integrity invariant, no orphan pinned tab already bearing the id
the new session will get): create "home", add the pinned tab
"https://mail.example.com", launch with `fresh = true`.  The profile
directory is recreated empty whatever it contained before, and the substring
list embedded in the generated auto-pin script is exactly
`["https://mail.example.com"]`. -/
theorem scenario_home_fresh_launch (s : Store) (priorProfile : Option (List String))
    (spawn : Except String Unit)
    (hname : ∀ r ∈ s.sessions, r.name ≠ "home")
    (htabs : ∀ t ∈ s.pinnedTabs, t.sessionId ≠ s.nextSessionId) :
    (launch_chromium "home" true true priorProfile spawn
        (add_pinned_tab "home" (some "https://mail.example.com")
          (get_session_id "home" s).2)).profileContents = [] ∧
    (launch_chromium "home" true true priorProfile spawn
        (add_pinned_tab "home" (some "https://mail.example.com")
          (get_session_id "home" s).2)).autopin =
      some { dirName := "auto_pin_extension",
             embeddedUrls := ["https://mail.example.com"] } := by
  have hu : ("https://mail.example.com" : String) ≠ "" := by decide
  have hgs : get_session_id "home" s =
      (s.nextSessionId,
        { s with sessions := s.sessions ++ [⟨s.nextSessionId, "home"⟩],
                 nextSessionId := s.nextSessionId + 1 }) := by
    unfold get_session_id
    rw [find?_sessions_eq_none "home" s hname]
  have hstab₁ := get_session_id_stable "home" s (get_session_id "home" s).2 rfl
  have hsess : (add_pinned_tab "home" (some "https://mail.example.com")
      (get_session_id "home" s).2).sessions = (get_session_id "home" s).2.sessions := by
    rw [add_pinned_tab_sessions, hstab₁]
  have hstab₂ := get_session_id_stable "home" s
    (add_pinned_tab "home" (some "https://mail.example.com")
      (get_session_id "home" s).2) hsess
  have htabs₂ : (add_pinned_tab "home" (some "https://mail.example.com")
      (get_session_id "home" s).2).pinnedTabs =
      (get_session_id "home" s).2.pinnedTabs ++
        [⟨(get_session_id "home" s).2.nextTabId, (get_session_id "home" s).1,
          "https://mail.example.com"⟩] := by
    rw [add_pinned_tab_pinnedTabs "home" "https://mail.example.com"
      (get_session_id "home" s).2 hu, hstab₁]
  have hfilter : ((add_pinned_tab "home" (some "https://mail.example.com")
      (get_session_id "home" s).2).pinnedTabs.filter
        (fun t => t.sessionId == (get_session_id "home" s).1)) =
      [⟨(get_session_id "home" s).2.nextTabId, (get_session_id "home" s).1,
        "https://mail.example.com"⟩] := by
    rw [htabs₂, List.filter_append]
    have hnil : ((get_session_id "home" s).2.pinnedTabs.filter
        (fun t => t.sessionId == (get_session_id "home" s).1)) = [] := by
      rw [List.filter_eq_nil_iff]
      intro t ht
      rw [hgs] at ht ⊢
      simpa using htabs t ht
    rw [hnil]
    simp
  constructor
  · rfl
  · simp only [launch_chromium, hstab₂]
    rw [hfilter]
    rfl

/-- Witness for `scenario_home_fresh_launch` at a concrete input (prior
profile content present, to see it removed). -/
theorem scenario_home_fresh_launch_witness :
    (launch_chromium "home" true true (some ["Default", "Cache"]) (.ok ())
        (add_pinned_tab "home" (some "https://mail.example.com")
          (get_session_id "home" initStore).2)).profileContents = [] ∧
    (launch_chromium "home" true true (some ["Default", "Cache"]) (.ok ())
        (add_pinned_tab "home" (some "https://mail.example.com")
          (get_session_id "home" initStore).2)).autopin =
      some { dirName := "auto_pin_extension",
             embeddedUrls := ["https://mail.example.com"] } :=
  scenario_home_fresh_launch initStore (some ["Default", "Cache"]) (.ok ())
    (by decide) (by decide)

/-- `find?` returns the head of the filtered list: first-match semantics. -/
theorem find?_eq_head?_filter {α : Type} (p : α → Bool) (l : List α) :
    l.find? p = (l.filter p).head? := by
  induction l with
  | nil => rfl
  | cons a t ih =>
      rw [List.find?_cons, List.filter_cons]
      cases hp : p a
      · simp only [hp, Bool.false_eq_true, if_false]
        exact ih
      · simp [hp]

/-- C6 (counterexample): the generated content script does NOT fill only the
first username/email and password fields: on a page with two text fields and
two password fields it writes the matched credential into ALL of them
(`forEach` over `querySelectorAll`), diverging from the spec-modelled
first-only fill at the second field of each kind. -/
theorem fill_first_only_cex :
    fillCredentials (some ⟨"example.com", some "bob", "pw"⟩)
        [⟨FieldType.text, "a"⟩, ⟨FieldType.text, "b"⟩,
         ⟨FieldType.password, "c"⟩, ⟨FieldType.password, "d"⟩] =
      [⟨FieldType.text, "bob"⟩, ⟨FieldType.text, "bob"⟩,
       ⟨FieldType.password, "pw"⟩, ⟨FieldType.password, "pw"⟩] ∧
    fillFirstOnlySpec (some ⟨"example.com", some "bob", "pw"⟩)
        [⟨FieldType.text, "a"⟩, ⟨FieldType.text, "b"⟩,
         ⟨FieldType.password, "c"⟩, ⟨FieldType.password, "d"⟩] =
      [⟨FieldType.text, "bob"⟩, ⟨FieldType.text, "b"⟩,
       ⟨FieldType.password, "pw"⟩, ⟨FieldType.password, "d"⟩] ∧
    fillCredentials (some ⟨"example.com", some "bob", "pw"⟩)
        [⟨FieldType.text, "a"⟩, ⟨FieldType.text, "b"⟩,
         ⟨FieldType.password, "c"⟩, ⟨FieldType.password, "d"⟩] ≠
      fillFirstOnlySpec (some ⟨"example.com", some "bob", "pw"⟩)
        [⟨FieldType.text, "a"⟩, ⟨FieldType.text, "b"⟩,
         ⟨FieldType.password, "c"⟩, ⟨FieldType.password, "d"⟩] := by
  refine ⟨by decide, by decide, by decide⟩

/-- C6 (amended): during launch the auto-fill bundle is generated iff the
session has at least one credential (both directions unconditional), and when
generated its background component embeds the session's full credential list;
on page load the content component requests the first credential (in stored
order) whose website is a substring of the page url — when one matches it
fills EVERY username/email input field (when the stored username is truthy)
and EVERY password input field with its values, and when none matches the
page is left unchanged. -/
theorem autofill_behaviour (session_name : String) (fresh use_autopin : Bool)
    (priorProfile : Option (List String)) (spawn : Except String Unit)
    (s : Store) (url : String) (fields : List InputField) :
    ((launch_chromium session_name fresh use_autopin priorProfile spawn s).autofill = none ↔
      (launch_chromium session_name fresh use_autopin priorProfile spawn s).credentials = []) ∧
    (∀ ext, (launch_chromium session_name fresh use_autopin priorProfile spawn s).autofill =
        some ext →
      ext.embeddedCredentials =
        (launch_chromium session_name fresh use_autopin priorProfile spawn s).credentials) ∧
    getCredentials
        (launch_chromium session_name fresh use_autopin priorProfile spawn s).credentials url =
      ((launch_chromium session_name fresh use_autopin priorProfile spawn s).credentials.filter
        (fun cred => strContains url cred.website)).head? ∧
    (∀ c : Cred,
      getCredentials
          (launch_chromium session_name fresh use_autopin priorProfile spawn s).credentials
          url = some c →
      strContains url c.website = true ∧
      autofillOnLoad
          (launch_chromium session_name fresh use_autopin priorProfile spawn s).credentials
          url fields = fillCredentials (some c) fields ∧
      (∀ i : Nat, ∀ f : InputField, fields[i]? = some f → isUsernameField f = true →
        strTruthy c.username = true →
        (fillCredentials (some c) fields)[i]? = some ⟨f.type, c.username.getD ""⟩) ∧
      (∀ i : Nat, ∀ f : InputField, fields[i]? = some f → f.type = FieldType.password →
        (fillCredentials (some c) fields)[i]? = some ⟨f.type, c.password⟩)) ∧
    (getCredentials
        (launch_chromium session_name fresh use_autopin priorProfile spawn s).credentials
        url = none →
      autofillOnLoad
        (launch_chromium session_name fresh use_autopin priorProfile spawn s).credentials
        url fields = fields) := by
  have hauto : (launch_chromium session_name fresh use_autopin priorProfile spawn s).autofill =
      (if (launch_chromium session_name fresh use_autopin priorProfile spawn s).credentials.isEmpty
        then none
        else some (create_autofill_extension
          (launch_chromium session_name fresh use_autopin priorProfile spawn s).credentials)) :=
    rfl
  refine ⟨?_, ?_, ?_, ?_, ?_⟩
  · rw [hauto]
    cases hke : (launch_chromium session_name fresh use_autopin priorProfile spawn
        s).credentials.isEmpty
    · have hne : (launch_chromium session_name fresh use_autopin priorProfile spawn
          s).credentials ≠ [] := by
        intro h
        rw [h] at hke
        simp at hke
      simp [hne]
    · simp [List.isEmpty_iff.mp hke]
  · intro ext hext
    rw [hauto] at hext
    cases hke : (launch_chromium session_name fresh use_autopin priorProfile spawn
        s).credentials.isEmpty
    · rw [hke] at hext
      simp at hext
      rw [← hext]
      rfl
    · rw [hke] at hext
      simp at hext
  · exact find?_eq_head?_filter _ _
  · intro c hc
    refine ⟨?_, ?_, ?_, ?_⟩
    · have := List.find?_some hc
      simpa using this
    · unfold autofillOnLoad
      rw [hc]
    · intro i f hf hun htr
      unfold fillCredentials
      rw [List.getElem?_map, hf]
      simp [hun, htr]
    · intro i f hf hpw
      unfold fillCredentials
      rw [List.getElem?_map, hf]
      have hun : isUsernameField f = false := by
        unfold isUsernameField
        rw [hpw]
        rfl
      simp [hun, hpw]
  · intro hnone
    unfold autofillOnLoad
    rw [hnone]
    rfl

/-- Witness for `autofill_behaviour` at concrete inputs, exercising both
directions: a credential-less session generates no auto-fill bundle, and a
session with one stored credential matches it by substring on page load. -/
theorem autofill_behaviour_witness :
    (launch_chromium "solo" false true none (.ok ()) initStore).autofill = none ∧
    strContains "https://example.com/login" "example.com" = true ∧
    autofillOnLoad
        (launch_chromium "work" false true none (.ok ())
          { sessions := [⟨1, "work"⟩], nextSessionId := 2,
            pinnedTabs := [], nextTabId := 1,
            credentials := [⟨1, 1, "example.com", some "bob", "pw"⟩],
            nextCredId := 2 }).credentials "https://example.com/login"
        [⟨FieldType.text, ""⟩] =
      fillCredentials (some ⟨"example.com", some "bob", "pw"⟩) [⟨FieldType.text, ""⟩] :=
  have h₀ := autofill_behaviour "solo" false true none (.ok ()) initStore
    "https://example.com/login" []
  have h₁ := autofill_behaviour "work" false true none (.ok ())
    { sessions := [⟨1, "work"⟩], nextSessionId := 2,
      pinnedTabs := [], nextTabId := 1,
      credentials := [⟨1, 1, "example.com", some "bob", "pw"⟩],
      nextCredId := 2 } "https://example.com/login" [⟨FieldType.text, ""⟩]
  have hmatch := h₁.2.2.2.1 ⟨"example.com", some "bob", "pw"⟩ (by decide)
  ⟨h₀.1.mpr (by decide), hmatch.1, hmatch.2.1⟩

end BrowserSessions
